import Mathlib

/-
Verification of the Ensemble playback engine (sample-based, Web Audio) and
its server-side measure-signature endpoint.

The definitions below are a shallow embedding of the JavaScript sources:
  - the playback engine module (SampleCache, PlaybackEngine, pitch helpers),
  - the signature-resolution function and duration table of the score
    renderer (the renderer document of src/public/js/app.js), which the
    engine imports,
  - the server measure-signature PUT handler.
Times and gains are modelled as exact rationals; JavaScript falsy coercions
(x or-else fallback) are modelled explicitly at each use site.  Object
identity of created audio nodes is modelled by allocating fresh natural
number identifiers from a counter carried in the engine state.
-/

namespace Ensemble

-- =========================================================================
-- Data model (score snapshot as delivered by the server)
-- =========================================================================

/-- A note row, as stored by the server and consumed by the engine. -/
structure Note where
  id : String
  instrument_id : String
  pitch : String
  measure : Nat
  beat : ℚ
  duration : String
  is_rest : Bool
  dynamic : String
  vibrato : Nat
deriving DecidableEq, Repr

/-- Score metadata row. -/
structure Score where
  title : String
  key_signature : String
  time_signature : String
  tempo : Nat
  total_measures : Nat
deriving DecidableEq, Repr

/-- A per-measure signature override row (sparse; fields optional). -/
structure SigOverride where
  measure : Nat
  key_signature : Option String
  time_signature : Option String
  tempo : Option Nat
deriving DecidableEq, Repr

/-- The full score snapshot passed to play(). -/
structure ScoreData where
  score : Score
  notes : List Note
  measureSignatures : List SigOverride
deriving DecidableEq, Repr

/-- The effective signature triple for a measure. -/
structure EffSig where
  key : String
  time : String
  tempo : Nat
deriving DecidableEq, Repr

/-- The getEffectiveSignature function of the score renderer (the renderer
document of src/public/js/app.js): each of key/time/tempo starts from the
base value of the score; walking the override list in order, an override
whose measure is at most the target replaces the running value of each field
that is truthy — a missing field, an empty string, or a zero tempo leaves
the running value in place (fields inherit independently). -/
def getEffectiveSignature (m : Nat) (sd : ScoreData) : EffSig :=
  sd.measureSignatures.foldl
    (fun acc o =>
      if o.measure ≤ m then
        { key :=
            match o.key_signature with
            | some s => if s = "" then acc.key else s
            | none => acc.key,
          time :=
            match o.time_signature with
            | some s => if s = "" then acc.time else s
            | none => acc.time,
          tempo :=
            match o.tempo with
            | some t => if t = 0 then acc.tempo else t
            | none => acc.tempo }
      else acc)
    { key := sd.score.key_signature,
      time := sd.score.time_signature,
      tempo := sd.score.tempo }

/-- The DUR_TO_BEATS table of the score renderer (the renderer document of
src/public/js/app.js): duration name to number of quarter-note beats,
whole=4, half=2, quarter=1, eighth=0.5, sixteenth=0.25. -/
def DUR_TO_BEATS (d : String) : Option ℚ :=
  if d = "whole" then some 4
  else if d = "half" then some 2
  else if d = "quarter" then some 1
  else if d = "eighth" then some (1/2)
  else if d = "sixteenth" then some (1/4)
  else none

-- =========================================================================
-- Pitch helpers (playback module)
-- =========================================================================

/-- Lookup table INST_TO_SOUNDFONT. -/
def INST_TO_SOUNDFONT (s : String) : Option String :=
  if s = "violin1" then some "violin"
  else if s = "violin2" then some "violin"
  else if s = "viola" then some "viola"
  else if s = "cello" then some "cello"
  else if s = "contrabass" then some "contrabass"
  else none

/-- Lookup table SHARP_TO_FLAT (soundfont note names use flats). -/
def SHARP_TO_FLAT (s : String) : Option String :=
  if s = "C#" then some "Db"
  else if s = "D#" then some "Eb"
  else if s = "F#" then some "Gb"
  else if s = "G#" then some "Ab"
  else if s = "A#" then some "Bb"
  else none

/-- True for the pitch letters A through G. -/
def isNoteLetter (c : Char) : Bool := 'A' ≤ c && c ≤ 'G'

/-- The regular-expression match used by both pitch helpers: a letter A-G,
an optional sharp or flat mark, and a single octave digit, anchored at both
ends.  Returns the three capture groups on success. -/
def pitchMatch (s : String) : Option (Char × Option Char × Char) :=
  match s.data with
  | [l, d] =>
      if isNoteLetter l && d.isDigit then some (l, none, d) else none
  | [l, a, d] =>
      if isNoteLetter l && (a == '#' || a == 'b') && d.isDigit then
        some (l, some a, d)
      else none
  | _ => none

/-- pitchToSampleKey: map a pitch to the soundfont sample name, converting a
sharp to its flat synonym when the table has one; fall back to C4 when the
pitch does not match the pattern. -/
def pitchToSampleKey (s : String) : String :=
  match pitchMatch s with
  | none => "C4"
  | some (l, acc, oct) =>
    match acc with
    | some c =>
        if c = '#' then
          match SHARP_TO_FLAT (String.mk [l, '#']) with
          | some flat => flat ++ String.mk [oct]
          | none => String.mk [l, c, oct]
        else String.mk [l, c, oct]
    | none => String.mk [l, oct]

/-- Lookup table NOTE_SEMITONES (semitone offsets relative to A). -/
def NOTE_SEMITONES (c : Char) : Option ℤ :=
  if c = 'C' then some (-9)
  else if c = 'D' then some (-7)
  else if c = 'E' then some (-5)
  else if c = 'F' then some (-4)
  else if c = 'G' then some (-2)
  else if c = 'A' then some 0
  else if c = 'B' then some 2
  else none

/-- The semitone computation inside pitchToFreq, for a successful match:
base letter offset, plus or minus one per accidental mark, plus twelve per
octave away from octave four. -/
def pitchSemitones (l : Char) (acc : Option Char) (oct : Char) : ℤ :=
  let base := (NOTE_SEMITONES l).getD 0
  let fromOct := base + ((oct.toNat : ℤ) - 48 - 4) * 12
  if acc == some '#' then fromOct + 1
  else if acc == some 'b' then fromOct - 1
  else fromOct

/-- pitchToFreq, with the transcendental two-to-the-power abstracted as a
parameter f (the source computes 440 times two raised to semitones over
twelve; the exponential itself is irrelevant to every claim, and the claim
quantifies over all f).  A pitch that does not match the pattern yields the
fallback frequency 440. -/
def pitchToFreqWith (f : ℤ → ℚ) (s : String) : ℚ :=
  match pitchMatch s with
  | none => 440
  | some (l, acc, oct) => 440 * f (pitchSemitones l acc oct)

-- =========================================================================
-- Engine constant tables
-- =========================================================================

/-- Dynamic marking to gain multiplier. -/
def DYNAMIC_GAIN (d : String) : Option ℚ :=
  if d = "pp" then some (3/10)
  else if d = "p" then some (1/2)
  else if d = "mp" then some (7/10)
  else if d = "mf" then some 1
  else if d = "f" then some (13/10)
  else if d = "ff" then some (8/5)
  else none

/-- Per-instrument gain scaling. -/
def INST_GAIN (s : String) : Option ℚ :=
  if s = "violin1" then some (9/10)
  else if s = "violin2" then some (17/20)
  else if s = "viola" then some (9/10)
  else if s = "cello" then some 1
  else if s = "contrabass" then some (11/10)
  else none

/-- SCHEDULE_AHEAD, 0.12 seconds. -/
def SCHEDULE_AHEAD : ℚ := 12 / 100

-- =========================================================================
-- Per-measure timing tables (the loop at the heart of play())
-- =========================================================================

/-- The numerator of a time-signature string: the digits before the slash,
as read by Number() on the first element of the split (0 when the prefix is
not a digit string). -/
def timeNumerator (t : String) : Nat :=
  let pre := t.data.takeWhile (fun c => !(c == '/'))
  if pre.all Char.isDigit then
    pre.foldl (fun n c => 10 * n + (c.toNat - 48)) 0
  else 0

/-- The tempo used for a measure: the effective tempo of the measure, with
the falsy or-else fallback to the base tempo of the score, mirroring the
expression mSig.tempo or-else score.tempo. -/
def effTempo (sd : ScoreData) (m : Nat) : Nat :=
  let t := (getEffectiveSignature m sd).tempo
  if t = 0 then sd.score.tempo else t

/-- Seconds per beat in a measure: 60 divided by the measure tempo. -/
def secPerBeat (sd : ScoreData) (m : Nat) : ℚ := 60 / (effTempo sd m : ℚ)

/-- The number of beats in a measure: the numerator of the effective time
signature of that measure. -/
def beatsInMeasure (sd : ScoreData) (m : Nat) : Nat :=
  timeNumerator (getEffectiveSignature m sd).time

/-- The duration in seconds of one measure. -/
def measureLen (sd : ScoreData) (m : Nat) : ℚ :=
  (beatsInMeasure sd m : ℚ) * secPerBeat sd m

/-- One iteration of the cumulative-timing loop in play(): record the
running start time and the seconds-per-beat for measure m, then advance the
running time by the length of measure m. -/
def tableStep (sd : ScoreData) (acc : List (Nat × ℚ) × List (Nat × ℚ) × ℚ)
    (m : Nat) : List (Nat × ℚ) × List (Nat × ℚ) × ℚ :=
  (acc.1 ++ [(m, acc.2.2)],
   acc.2.1 ++ [(m, secPerBeat sd m)],
   acc.2.2 + measureLen sd m)

/-- The loop in play() that fills _measureStartTimes and _measureSecPerBeat
for m from fromMeasure to lastNotesMeasure, accumulating cumTime.  Returns
(start-time table, seconds-per-beat table, total duration). -/
def buildTables (sd : ScoreData) (fromM lastM : Nat) :
    List (Nat × ℚ) × List (Nat × ℚ) × ℚ :=
  (List.range' fromM (lastM + 1 - fromM)).foldl (tableStep sd) ([], [], 0)

/-- Lookup in a measure-keyed table (a JavaScript object keyed by measure
number; keys are written once each, in increasing order). -/
def lookupTable (t : List (Nat × ℚ)) (m : Nat) : Option ℚ :=
  (t.find? (fun p => p.1 == m)).map (fun p => p.2)

/-- The specification sum: total length of the measures from fromM
(inclusive) to m (exclusive), each with its own effective tempo and time
signature. -/
def cumStartSum (sd : ScoreData) (fromM m : Nat) : ℚ :=
  ((List.range' fromM (m - fromM)).map (measureLen sd)).sum

/-- The scan in play() that finds the last measure containing a playable
note at or after fromMeasure (fromMeasure itself when there is none). -/
def lastNotesMeasure (sd : ScoreData) (fromM : Nat) : Nat :=
  sd.notes.foldl
    (fun acc n =>
      if !n.is_rest && fromM ≤ n.measure && acc < n.measure then n.measure
      else acc)
    fromM

/-- The timing tables of a playback session. -/
def sessionTables (sd : ScoreData) (fromM : Nat) :
    List (Nat × ℚ) × List (Nat × ℚ) × ℚ :=
  buildTables sd fromM (lastNotesMeasure sd fromM)

/-- The seconds-per-beat used when scheduling a note: the table entry for
the measure of the note, with the falsy or-else fallback to 60 over the base
tempo. -/
def noteSecPerBeat (sd : ScoreData) (fromM : Nat) (n : Note) : ℚ :=
  match lookupTable (sessionTables sd fromM).2.1 n.measure with
  | some v => if v = 0 then 60 / (sd.score.tempo : ℚ) else v
  | none => 60 / (sd.score.tempo : ℚ)

/-- The absolute start time computed for a note in play(): session start,
plus the schedule-ahead lead, plus the cumulative start of the measure of
the note (or-else 0), plus (beat - 1) times seconds-per-beat. -/
def noteStartTime (sd : ScoreData) (fromM : Nat) (sessionStart : ℚ)
    (n : Note) : ℚ :=
  let measureStart := (lookupTable (sessionTables sd fromM).1 n.measure).getD 0
  sessionStart + SCHEDULE_AHEAD + measureStart
    + (n.beat - 1) * noteSecPerBeat sd fromM n

/-- The duration computed for a note in play(): its duration-class beat
count (or-else 1) times seconds-per-beat. -/
def noteDurationSec (sd : ScoreData) (fromM : Nat) (n : Note) : ℚ :=
  ((DUR_TO_BEATS n.duration).getD 1) * noteSecPerBeat sd fromM n

-- =========================================================================
-- The scheduling filter of play() (solo and mute)
-- =========================================================================

/-- The condition under which the scheduling loop of play() keeps a note:
not a rest, at or after the start measure, not filtered out by the solo
instrument, and its instrument not in the mute set.  The solo test comes
first; the mute test is applied afterwards in any case. -/
def schedKeep (fromM : Nat) (solo : Option String) (muted : List String)
    (n : Note) : Bool :=
  !n.is_rest && fromM ≤ n.measure
    && (match solo with
        | some i => n.instrument_id == i
        | none => true)
    && !(muted.contains n.instrument_id)

/-- The notes actually scheduled by play(). -/
def filteredNotes (sd : ScoreData) (fromM : Nat) (solo : Option String)
    (muted : List String) : List Note :=
  sd.notes.filter (schedKeep fromM solo muted)

-- =========================================================================
-- SampleCache
-- =========================================================================

/-- The cache key used by the sample cache for a note: the soundfont name of
the instrument (or-else violin) joined by a colon with the sample key of the
pitch. -/
def cacheKeyOf (n : Note) : String :=
  ((INST_TO_SOUNDFONT n.instrument_id).getD "violin") ++ ":"
    ++ pitchToSampleKey n.pitch

/-- The state of the sample cache: the set of cached keys, the set of keys
with a load in flight, and the log of underlying fetches that have been
issued (in order). -/
structure CacheState where
  cache : List String
  pending : List String
  fetchLog : List String
deriving DecidableEq, Repr

/-- The synchronous prefix of SampleCache load: if a load is already in
flight for the key the existing one is returned and nothing else happens;
otherwise the fetch is issued and the key is recorded as in flight. -/
def loadStart (k : String) (s : CacheState) : CacheState :=
  if s.pending.contains k then s
  else { s with fetchLog := s.fetchLog ++ [k], pending := s.pending ++ [k] }

/-- The completion of a load for a key: on success the decoded sample is
stored in the cache; in any case the in-flight entry for the key is removed
(the finally block). -/
def loadSettle (k : String) (ok : Bool) (s : CacheState) : CacheState :=
  { s with
    cache := if ok then s.cache ++ [k] else s.cache,
    pending := s.pending.filter (fun x => !(x == k)) }

/-- The job list built by SampleCache preload: one cache key per playable
note, deduplicated within the batch and against the cache, in note order. -/
def preloadKeys (cached : List String) (notes : List Note) : List String :=
  (notes.foldl
    (fun (acc : List String × List String) n =>
      if n.is_rest then acc
      else
        let key := cacheKeyOf n
        if acc.1.contains key || cached.contains key then acc
        else (key :: acc.1, acc.2 ++ [key]))
    ([], [])).2

-- =========================================================================
-- Per-note scheduling (_scheduleNote)
-- =========================================================================

/-- The low-frequency modulator created for a vibrato note: its rate, the
gain-ramp endpoints driving the modulation depth, and its start and stop
times. -/
structure LfoSpec where
  freq : ℚ
  rampFromValue : ℚ
  rampFromTime : ℚ
  rampToValue : ℚ
  rampToTime : ℚ
  startAt : ℚ
  stopAt : ℚ
deriving DecidableEq, Repr

/-- What _scheduleNote builds for one note: which branch was taken (sample
or synthesis fallback), the combined gain, the optional low-frequency
modulator, and the start and stop times of the sound source. -/
structure NoteSchedule where
  usedSample : Bool
  totalGain : ℚ
  lfo : Option LfoSpec
  srcStart : ℚ
  srcStop : ℚ
deriving DecidableEq, Repr

/-- The _scheduleNote method.  hasBuffer tells whether the sample cache held
a decoded sample for the instrument and pitch of the note.  The modulator is
created only when the vibrato flag of the note equals 1; its depth is ramped
linearly from 0 at the note start to full depth at start plus the smaller of
0.4 seconds and half the duration. -/
def scheduleNote (hasBuffer : Bool) (n : Note) (startTime duration : ℚ) :
    NoteSchedule :=
  let dynGain := (DYNAMIC_GAIN n.dynamic).getD 1
  let instGain := (INST_GAIN n.instrument_id).getD 1
  let totalGain := dynGain * instGain
  let useVibrato := n.vibrato == 1
  if hasBuffer then
    { usedSample := true
      totalGain := totalGain
      lfo :=
        if useVibrato then
          some { freq := 26/5
                 rampFromValue := 0
                 rampFromTime := startTime
                 rampToValue := 12
                 rampToTime := startTime + min (2/5) (duration * (1/2))
                 startAt := startTime
                 stopAt := startTime + duration + 1/10 }
        else none
      srcStart := startTime
      srcStop := startTime + duration + 1/10 }
  else
    { usedSample := false
      totalGain := totalGain
      lfo :=
        if useVibrato then
          some { freq := 26/5
                 rampFromValue := 0
                 rampFromTime := startTime
                 rampToValue := 3
                 rampToTime := startTime + min (2/5) (duration * (1/2))
                 startAt := startTime
                 stopAt := startTime + duration + 1/20 }
        else none
      srcStart := startTime
      srcStop := startTime + duration + 1/20 }

-- =========================================================================
-- PlaybackEngine state, stop() and play()
-- =========================================================================

/-- The engine state.  Audio node objects are identified by natural numbers
allocated from the nextId counter (modelling JavaScript object identity);
stoppedFx records every node on which stop() has been called, and
cancelledFrames every animation-frame handle that has been cancelled. -/
structure Engine where
  playing : Bool
  loading : Bool
  startMeasure : Nat
  scheduledNodes : List Nat
  mutedInstruments : List String
  soloInstrument : Option String
  animFrame : Option Nat
  nextId : Nat
  stoppedFx : List Nat
  cancelledFrames : List Nat
deriving DecidableEq, Repr

/-- The engine as constructed. -/
def Engine.init : Engine :=
  { playing := false, loading := false, startMeasure := 1,
    scheduledNodes := [], mutedInstruments := [], soloInstrument := none,
    animFrame := none, nextId := 0, stoppedFx := [], cancelledFrames := [] }

/-- The stop() method: clear the playing and loading flags, call stop on
every scheduled node and empty the list, and cancel the animation frame when
one is pending. -/
def Engine.stop (e : Engine) : Engine :=
  { e with
    playing := false
    loading := false
    scheduledNodes := []
    stoppedFx := e.stoppedFx ++ e.scheduledNodes
    animFrame := none
    cancelledFrames :=
      match e.animFrame with
      | some h => e.cancelledFrames ++ [h]
      | none => e.cancelledFrames }

/-- The audio nodes pushed onto scheduledNodes for a list of notes: one
source node per note, plus one modulator node when the vibrato flag of the
note equals 1, with fresh identifiers.  Returns the node list and the next
free identifier. -/
def allocNodes : List Note → Nat → List Nat × Nat
  | [], i => ([], i)
  | n :: rest, i =>
      let ids := if n.vibrato = 1 then [i, i + 1] else [i]
      let next := if n.vibrato = 1 then i + 2 else i + 1
      let r := allocNodes rest next
      (ids ++ r.1, r.2)

/-- The synchronous prefix of play(scoreData, fromMeasure), up to the await
of the sample preload: stop() the previous session, then set the playing and
loading flags and the start measure.  The preload issued here touches only
the sample cache, not the engine state; execution of this call then suspends
until the preload settles. -/
def Engine.playStart (fromM : Nat) (e : Engine) : Engine :=
  let e0 := Engine.stop e
  { e0 with playing := true, loading := true, startMeasure := fromM }

/-- The continuation of play() after its awaited preload resolves.  The
guard reads the CURRENT playing flag (which a later play() may have re-set)
and aborts the session only when it is clear; otherwise loading is cleared,
the audio graph is rebuilt, and the scheduling loop pushes fresh audio nodes
for the filtered notes of this call (its scoreData and fromMeasure are
captured in the closure) onto scheduledNodes, then requests a fresh
animation frame. -/
def Engine.playResume (sd : ScoreData) (fromM : Nat) (e : Engine) : Engine :=
  if e.playing then
    let e2 := { e with loading := false }
    let ns := filteredNotes sd fromM e2.soloInstrument e2.mutedInstruments
    let r := allocNodes ns e2.nextId
    { e2 with
      scheduledNodes := e2.scheduledNodes ++ r.1
      nextId := r.2 + 1
      animFrame := some r.2 }
  else e

/-- An uninterrupted run of play(): the synchronous prefix followed
immediately by its continuation, with no other call in between. -/
def Engine.play (sd : ScoreData) (fromM : Nat) (e : Engine) : Engine :=
  Engine.playResume sd fromM (Engine.playStart fromM e)

-- =========================================================================
-- The event order of one run of play() (preload before scheduling)
-- =========================================================================

/-- An observable event during one run of play(). -/
inductive PlayEvent where
  | preloadSettled (key : String)
  | noteScheduled (noteId : String)
deriving DecidableEq, Repr

/-- The ordered event trace of one run of play(): the awaited preload of
every playable note settles (Promise.all over the job list) before the
scheduling loop submits any note. -/
def playTrace (cached : List String) (sd : ScoreData) (fromM : Nat)
    (solo : Option String) (muted : List String) : List PlayEvent :=
  (preloadKeys cached
      (sd.notes.filter (fun n => !n.is_rest && fromM ≤ n.measure))).map
    PlayEvent.preloadSettled
  ++ (filteredNotes sd fromM solo muted).map
      (fun n => PlayEvent.noteScheduled n.id)

-- =========================================================================
-- Server: PUT /api/measure-signature/:measure
-- =========================================================================

/-- A row of the measure_signatures table. -/
structure MeasureSigRow where
  key_signature : Option String
  time_signature : Option String
  tempo : Option ℤ
deriving DecidableEq, Repr

/-- The request body of the measure-signature PUT (absent fields are none). -/
structure SigBody where
  key_signature : Option String
  time_signature : Option String
  tempo : Option ℤ
deriving DecidableEq, Repr

/-- The JavaScript falsy or-else-null coercion on an optional string: an
absent or empty string becomes null. -/
def jsStrOrNull (v : Option String) : Option String :=
  match v with
  | some s => if s = "" then none else some s
  | none => none

/-- The JavaScript falsy or-else-null coercion on an optional integer: an
absent or zero value becomes null. -/
def jsIntOrNull (v : Option ℤ) : Option ℤ :=
  match v with
  | some t => if t = 0 then none else some t
  | none => none

/-- The SQLite upsert on measure_signatures: on a measure conflict the
existing row is replaced by the excluded values, otherwise a new row is
inserted. -/
def upsertRow (db : List (Nat × MeasureSigRow)) (m : Nat)
    (r : MeasureSigRow) : List (Nat × MeasureSigRow) :=
  if db.any (fun p => p.1 == m) then
    db.map (fun p => if p.1 == m then (m, r) else p)
  else db ++ [(m, r)]

/-- Primary-key lookup in the measure_signatures table. -/
def lookupRow (db : List (Nat × MeasureSigRow)) (m : Nat) :
    Option MeasureSigRow :=
  (db.find? (fun p => p.1 == m)).map (fun p => p.2)

/-- The PUT measure-signature handler: reject a measure outside
[1, total_measures]; reject a present tempo outside [20, 300]; otherwise
upsert a row holding the three body fields with falsy values stored as
null. -/
def putMeasureSignature (total : Nat) (db : List (Nat × MeasureSigRow))
    (measure : Nat) (body : SigBody) :
    Except String (List (Nat × MeasureSigRow)) :=
  if measure < 1 || total < measure then
    Except.error "Measure out of range"
  else
    let row : MeasureSigRow :=
      { key_signature := jsStrOrNull body.key_signature,
        time_signature := jsStrOrNull body.time_signature,
        tempo := jsIntOrNull body.tempo }
    match body.tempo with
    | some t =>
        if t < 20 || 300 < t then
          Except.error "Tempo must be between 20 and 300 BPM"
        else Except.ok (upsertRow db measure row)
    | none => Except.ok (upsertRow db measure row)

-- =========================================================================
-- Concrete witness data
-- =========================================================================

/-- A concrete vibrato note (for the C8 witness). -/
def c8note : Note :=
  { id := "w8", instrument_id := "cello", pitch := "C3", measure := 1,
    beat := 1, duration := "half", is_rest := false, dynamic := "mf",
    vibrato := 1 }

/-- A concrete empty cache state (for the C6 witness). -/
def c6state : CacheState := { cache := [], pending := [], fetchLog := [] }

-- =========================================================================
-- Claim C9: totality of the pitch helpers
-- =========================================================================

/-- Claim C9: the pitch-parsing functions are total and never throw; any
pitch string that does not match the pattern (letter A-G, optional sharp or
flat, single octave digit) makes pitchToSampleKey return the fallback sample
key C4 and pitchToFreq return the fallback frequency 440, for every value of
the abstracted exponential. -/
theorem c9_pitch_fallback (s : String) (f : ℤ → ℚ)
    (h : pitchMatch s = none) :
    pitchToSampleKey s = "C4" ∧ pitchToFreqWith f s = 440 := by
  constructor
  · unfold pitchToSampleKey
    rw [h]
  · unfold pitchToFreqWith
    rw [h]

/-- Witness for C9 at the concrete non-matching pitch H4. -/
theorem c9_pitch_fallback_witness :
    pitchMatch "H4" = none ∧
      (pitchToSampleKey "H4" = "C4"
        ∧ pitchToFreqWith (fun _ => 0) "H4" = 440) :=
  ⟨by decide, c9_pitch_fallback "H4" (fun _ => 0) (by decide)⟩

-- =========================================================================
-- Claim C8: vibrato gating and depth ramp
-- =========================================================================

/-- Claim C8: a note whose vibrato flag is off never creates the
low-frequency modulator; a note whose vibrato flag is on gets a modulator
whose depth is ramped linearly from 0 at note start to full depth at start
plus the smaller of 0.4 seconds and half the duration, never starting at
full depth. -/
theorem c8_vibrato_ramp (hasBuffer : Bool) (n : Note) (st dur : ℚ) :
    ((scheduleNote hasBuffer n st dur).lfo = none ↔ n.vibrato ≠ 1)
    ∧ (n.vibrato = 1 →
        (scheduleNote hasBuffer n st dur).lfo =
          some { freq := 26/5
                 rampFromValue := 0
                 rampFromTime := st
                 rampToValue := if hasBuffer then 12 else 3
                 rampToTime := st + min (2/5) (dur * (1/2))
                 startAt := st
                 stopAt := st + dur + (if hasBuffer then 1/10 else 1/20) }) := by
  by_cases hv : n.vibrato = 1 <;> cases hasBuffer <;>
    simp [scheduleNote, hv]

/-- Witness for C8 at a concrete vibrato note. -/
theorem c8_vibrato_ramp_witness :
    c8note.vibrato = 1 ∧
      (scheduleNote true c8note 1 2).lfo =
        some { freq := 26/5, rampFromValue := 0, rampFromTime := 1,
               rampToValue := 12, rampToTime := 1 + min (2/5) (2 * (1/2)),
               startAt := 1, stopAt := 1 + 2 + 1/10 } :=
  ⟨rfl, by simpa using (c8_vibrato_ramp true c8note 1 2).2 rfl⟩

-- =========================================================================
-- Claim C7: stop() is a safe no-op and idempotent
-- =========================================================================

/-- Claim C7: stop() with no active session (nothing playing or loading, no
scheduled nodes, no animation frame) leaves the engine state unchanged and
raises no error; and stop() is idempotent: a second call in a row changes
nothing. -/
theorem c7_stop_idempotent (e : Engine) :
    Engine.stop (Engine.stop e) = Engine.stop e
    ∧ (e.playing = false → e.loading = false → e.scheduledNodes = [] →
        e.animFrame = none → Engine.stop e = e) := by
  obtain ⟨p, l, sm, sn, mi, si, af, ni, sf, cf⟩ := e
  constructor
  · simp [Engine.stop]
  · intro h1 h2 h3 h4
    simp only at h1 h2 h3 h4
    subst h1; subst h2; subst h3; subst h4
    simp [Engine.stop]

/-- Witness for C7 at the freshly constructed engine. -/
theorem c7_stop_idempotent_witness :
    Engine.init.playing = false ∧ Engine.init.loading = false
    ∧ Engine.init.scheduledNodes = [] ∧ Engine.init.animFrame = none
    ∧ Engine.stop Engine.init = Engine.init :=
  ⟨rfl, rfl, rfl, rfl,
    (c7_stop_idempotent Engine.init).2 rfl rfl rfl rfl⟩

-- =========================================================================
-- Claim C6: in-flight load deduplication
-- =========================================================================

/-- Claim C6: starting a load for a key that already has a load in flight
awaits the existing one and changes nothing, so two concurrent loads for the
same key issue exactly one underlying fetch; and settling a load, whether it
succeeds or fails, removes the in-flight entry for its key. -/
theorem c6_load_dedup (s : CacheState) (k : String) (ok : Bool) :
    loadStart k (loadStart k s) = loadStart k s
    ∧ (loadSettle k ok s).pending.contains k = false
    ∧ (s.pending.contains k = false →
        (loadStart k s).fetchLog.count k = s.fetchLog.count k + 1) := by
  refine ⟨?_, ?_, ?_⟩
  · by_cases hp : k ∈ s.pending
    · simp [loadStart, hp]
    · simp [loadStart, hp]
  · simp [loadSettle]
  · intro hp
    have hp2 : k ∉ s.pending := by simpa using hp
    simp [loadStart, hp2]

/-- Witness for C6 at a concrete key and the empty cache state. -/
theorem c6_load_dedup_witness :
    (c6state.pending.contains "violin:C4" = false)
    ∧ (loadStart "violin:C4" c6state).fetchLog.count "violin:C4"
        = c6state.fetchLog.count "violin:C4" + 1 :=
  ⟨rfl, (c6_load_dedup c6state "violin:C4" true).2.2 rfl⟩

-- =========================================================================
-- Claim C2: solo versus mute (corrected)
-- =========================================================================

/-- A concrete non-rest note of the solo instrument (for the C2
counterexample). -/
def c2note : Note :=
  { id := "w2", instrument_id := "violin1", pitch := "A4", measure := 1,
    beat := 1, duration := "quarter", is_rest := false, dynamic := "mf",
    vibrato := 0 }

/-- A concrete score containing only that note (for the C2
counterexample). -/
def c2sd : ScoreData :=
  { score := { title := "t", key_signature := "C", time_signature := "4/4",
               tempo := 100, total_measures := 32 },
    notes := [c2note], measureSignatures := [] }

/-- Counterexample to C2 as stated: with violin1 both soloed and muted, the
playable violin1 note is NOT scheduled, although the claim says a note of
the solo instrument is scheduled independent of the mute state. -/
theorem c2_solo_mute_counterexample :
    c2note ∈ c2sd.notes ∧ c2note.is_rest = false ∧ 1 ≤ c2note.measure
    ∧ c2note.instrument_id = "violin1"
    ∧ c2note ∉ filteredNotes c2sd 1 (some "violin1") ["violin1"] := by
  refine ⟨by decide, by decide, by decide, by decide, ?_⟩
  decide

/-- Claim C2 as amended: when a solo instrument is set, the scheduled notes
are exactly the playable notes of the solo instrument whose instrument is
NOT in the mute set (the mute check still applies after the solo check);
notes of every other instrument are skipped. -/
theorem c2_solo_filter_amended (sd : ScoreData) (fromM : Nat) (i : String)
    (muted : List String) (n : Note) :
    n ∈ filteredNotes sd fromM (some i) muted ↔
      n ∈ sd.notes ∧ n.is_rest = false ∧ fromM ≤ n.measure
        ∧ n.instrument_id = i ∧ n.instrument_id ∉ muted := by
  unfold filteredNotes schedKeep
  rw [List.mem_filter]
  simp [Bool.and_assoc]

-- =========================================================================
-- Claim C10: the measure-signature upsert replaces all three fields
-- =========================================================================

/-- Mapping a measure-keyed replacement over the table sends the first row
keyed by the measure to the replacement row. -/
theorem find_replace_keyed (m : Nat) (r : MeasureSigRow) :
    ∀ db : List (Nat × MeasureSigRow),
      (db.map (fun p => if p.1 == m then (m, r) else p)).find?
          (fun p => p.1 == m)
        = (db.find? (fun p => p.1 == m)).map (fun _ => (m, r)) := by
  intro db
  induction db with
  | nil => rfl
  | cons a t ih =>
    by_cases h : a.1 = m
    · have hb : ((a.1 == m) = true) := by simpa using h
      simp only [List.map_cons]
      rw [if_pos hb]
      simp [hb]
    · have hb2 : (a.1 == m) = false := by simpa using h
      simp only [List.map_cons]
      rw [if_neg (by simp [hb2])]
      rw [List.find?_cons, List.find?_cons]
      simp only [hb2]
      exact ih

/-- The upsert always leaves the target measure holding exactly the
replacement row. -/
theorem lookupRow_upsert (db : List (Nat × MeasureSigRow)) (m : Nat)
    (r : MeasureSigRow) : lookupRow (upsertRow db m r) m = some r := by
  unfold lookupRow upsertRow
  by_cases h : db.any (fun p => p.1 == m)
  · rw [if_pos h, find_replace_keyed]
    obtain ⟨x, hx, hpx⟩ := List.any_eq_true.mp h
    cases hfind : db.find? (fun p => p.1 == m) with
    | none =>
        exact absurd hpx (List.find?_eq_none.mp hfind x hx)
    | some y => simp
  · rw [if_neg h, List.find?_append]
    have hnone : db.find? (fun p => p.1 == m) = none := by
      rw [List.find?_eq_none]
      intro x hx hpx
      exact h (List.any_eq_true.mpr ⟨x, hx, hpx⟩)
    simp [hnone, List.find?]

/-- Claim C10: for any in-range measure and any valid body, the PUT handler
succeeds and stores, for the target measure, exactly the three body fields
with falsy values stored as null, independent of whatever row was stored
before; so a body carrying only a tempo erases earlier key-signature and
time-signature overrides of that measure. -/
theorem c10_put_replaces_row (total measure : Nat)
    (db : List (Nat × MeasureSigRow)) (body : SigBody)
    (h1 : 1 ≤ measure) (h2 : measure ≤ total)
    (h3 : ∀ t, body.tempo = some t → 20 ≤ t ∧ t ≤ 300) :
    ∃ db2, putMeasureSignature total db measure body = Except.ok db2
      ∧ lookupRow db2 measure =
          some { key_signature := jsStrOrNull body.key_signature,
                 time_signature := jsStrOrNull body.time_signature,
                 tempo := jsIntOrNull body.tempo } := by
  unfold putMeasureSignature
  have hrange : (decide (measure < 1) || decide (total < measure)) = false := by
    simp only [Bool.or_eq_false_iff, decide_eq_false_iff_not]
    omega
  rw [hrange]
  cases htempo : body.tempo with
  | none =>
      exact ⟨_, rfl, lookupRow_upsert _ _ _⟩
  | some t =>
      obtain ⟨ht1, ht2⟩ := h3 t htempo
      have hok : (decide (t < 20) || decide (300 < t)) = false := by
        simp only [Bool.or_eq_false_iff, decide_eq_false_iff_not]
        omega
      simp only [Bool.false_eq_true, if_false, hok]
      exact ⟨_, rfl, lookupRow_upsert _ _ _⟩

/-- A concrete stored override row holding only key and time signatures
(for the C10 witness). -/
def c10db : List (Nat × MeasureSigRow) :=
  [(3, { key_signature := some "G", time_signature := some "3/4",
         tempo := none })]

/-- A concrete request body carrying only a tempo (for the C10 witness). -/
def c10body : SigBody :=
  { key_signature := none, time_signature := none, tempo := some 120 }

-- =========================================================================
-- Claims C3 and C4: the cumulative timing tables and per-note timing
-- =========================================================================

/-- Extending the range by one measure adds the length of that measure to
the cumulative sum. -/
theorem cumStartSum_succ (sd : ScoreData) (fromM m : Nat) (h : fromM ≤ m) :
    cumStartSum sd fromM (m + 1) = cumStartSum sd fromM m + measureLen sd m := by
  unfold cumStartSum
  have h1 : m + 1 - fromM = (m - fromM) + 1 := by omega
  have h2 : fromM + (m - fromM) = m := by omega
  rw [h1, List.range'_1_concat, h2, List.map_append, List.sum_append]
  simp

/-- Characterization of the timing loop of play(): after folding over the
measures from fromM, the start-time table holds the cumulative sum for each
measure, the seconds-per-beat table holds the per-measure value, and the
accumulator holds the total duration. -/
theorem buildTables_char (sd : ScoreData) (fromM : Nat) : ∀ n : Nat,
    (List.range' fromM n).foldl (tableStep sd) ([], [], 0)
      = ((List.range' fromM n).map (fun m => (m, cumStartSum sd fromM m)),
         (List.range' fromM n).map (fun m => (m, secPerBeat sd m)),
         cumStartSum sd fromM (fromM + n)) := by
  intro n
  induction n with
  | zero => simp [cumStartSum]
  | succ n ih =>
    rw [List.range'_1_concat, List.foldl_append, ih, List.map_append,
      List.map_append]
    have hle : fromM ≤ fromM + n := Nat.le_add_right fromM n
    have hsum := cumStartSum_succ sd fromM (fromM + n) hle
    simp [tableStep, hsum]
    exact hsum.symm

/-- Looking a key up in a keyed map over a list containing it yields the
tabulated value. -/
theorem find?_keyed {α : Type} (f : Nat → α) (m : Nat) :
    ∀ l : List Nat, m ∈ l →
      (l.map (fun k => (k, f k))).find? (fun p => p.1 == m)
        = some (m, f m) := by
  intro l
  induction l with
  | nil => intro h; simp at h
  | cons a t ih =>
    intro h
    by_cases ha : a = m
    · subst ha
      simp only [List.map_cons]
      rw [List.find?_cons]
      simp
    · have hmem : m ∈ t := by
        rcases List.mem_cons.mp h with h1 | h1
        · exact absurd h1.symm ha
        · exact h1
      have hb2 : (a == m) = false := by simpa using ha
      simp only [List.map_cons]
      rw [List.find?_cons]
      simp only [hb2]
      exact ih hmem

/-- The start-time table built by play() holds, for every measure in range,
the sum of the lengths of the prior measures in range. -/
theorem lookup_start_table (sd : ScoreData) (fromM lastM m : Nat)
    (h1 : fromM ≤ m) (h2 : m ≤ lastM) :
    lookupTable (buildTables sd fromM lastM).1 m
      = some (cumStartSum sd fromM m) := by
  unfold buildTables lookupTable
  rw [buildTables_char]
  have hmem : m ∈ List.range' fromM (lastM + 1 - fromM) :=
    List.mem_range'_1.mpr ⟨h1, by omega⟩
  rw [find?_keyed (fun k => cumStartSum sd fromM k) m _ hmem]
  rfl

/-- The seconds-per-beat table built by play() holds, for every measure in
range, the seconds-per-beat of that measure. -/
theorem lookup_spb_table (sd : ScoreData) (fromM lastM m : Nat)
    (h1 : fromM ≤ m) (h2 : m ≤ lastM) :
    lookupTable (buildTables sd fromM lastM).2.1 m
      = some (secPerBeat sd m) := by
  unfold buildTables lookupTable
  rw [buildTables_char]
  have hmem : m ∈ List.range' fromM (lastM + 1 - fromM) :=
    List.mem_range'_1.mpr ⟨h1, by omega⟩
  rw [find?_keyed (fun k => secPerBeat sd k) m _ hmem]
  rfl

/-- Seconds per beat is positive whenever the base tempo of the score is
positive. -/
theorem secPerBeat_pos (sd : ScoreData) (m : Nat)
    (h : 0 < sd.score.tempo) : 0 < secPerBeat sd m := by
  unfold secPerBeat effTempo
  by_cases ht : (getEffectiveSignature m sd).tempo = 0
  · rw [if_pos ht]
    apply div_pos (by norm_num)
    exact_mod_cast h
  · rw [if_neg ht]
    apply div_pos (by norm_num)
    exact_mod_cast Nat.pos_of_ne_zero ht

/-- Claim C3: for every measure m in range, the precomputed cumulative
start-time table equals the sum over all prior measures in range of
beats-in-measure times seconds-per-beat computed from the effective tempo
and time signature of each measure; consecutive entries differ by exactly
beats-in-measure times seconds-per-beat of the earlier measure; and the
table is strictly increasing when the tempo is positive and the measure has
at least one beat. -/
theorem c3_cumulative_table (sd : ScoreData) (fromM lastM m : Nat)
    (h1 : fromM ≤ m) (h2 : m ≤ lastM) :
    lookupTable (buildTables sd fromM lastM).1 m
        = some (cumStartSum sd fromM m)
    ∧ (m < lastM →
        (lookupTable (buildTables sd fromM lastM).1 (m + 1)).getD 0
            - (lookupTable (buildTables sd fromM lastM).1 m).getD 0
          = (beatsInMeasure sd m : ℚ) * secPerBeat sd m)
    ∧ (m < lastM → 0 < sd.score.tempo → 1 ≤ beatsInMeasure sd m →
        (lookupTable (buildTables sd fromM lastM).1 m).getD 0
          < (lookupTable (buildTables sd fromM lastM).1 (m + 1)).getD 0) := by
  have hm := lookup_start_table sd fromM lastM m h1 h2
  refine ⟨hm, ?_, ?_⟩
  · intro hlt
    have hm1 := lookup_start_table sd fromM lastM (m + 1)
      (Nat.le_succ_of_le h1) (by omega)
    rw [hm, hm1, Option.getD_some, Option.getD_some,
      cumStartSum_succ sd fromM m h1]
    unfold measureLen
    ring
  · intro hlt htempo hbeats
    have hm1 := lookup_start_table sd fromM lastM (m + 1)
      (Nat.le_succ_of_le h1) (by omega)
    rw [hm, hm1, Option.getD_some, Option.getD_some,
      cumStartSum_succ sd fromM m h1]
    have hpos : 0 < measureLen sd m := by
      unfold measureLen
      apply mul_pos
      · exact_mod_cast hbeats
      · exact secPerBeat_pos sd m htempo
    linarith

/-- A concrete score with a tempo and time-signature override at measure 2
(for the C3 witness). -/
def c3sd : ScoreData :=
  { score := { title := "t", key_signature := "D", time_signature := "4/4",
               tempo := 100, total_measures := 32 },
    notes := [],
    measureSignatures :=
      [{ measure := 2, key_signature := none, time_signature := some "3/4",
         tempo := some 120 }] }

/-- Witness for C3 on the concrete score: the table entry for measure 2,
the difference to measure 3, and strictness, all at the overridden tempo
and time signature. -/
theorem c3_cumulative_table_witness :
    (1 : Nat) ≤ 2 ∧ (2 : Nat) ≤ 3
    ∧ lookupTable (buildTables c3sd 1 3).1 2 = some (cumStartSum c3sd 1 2)
    ∧ (lookupTable (buildTables c3sd 1 3).1 3).getD 0
        - (lookupTable (buildTables c3sd 1 3).1 2).getD 0
      = (beatsInMeasure c3sd 2 : ℚ) * secPerBeat c3sd 2
    ∧ (lookupTable (buildTables c3sd 1 3).1 2).getD 0
        < (lookupTable (buildTables c3sd 1 3).1 3).getD 0
    ∧ cumStartSum c3sd 1 2 = 12/5 :=
  ⟨by decide, by decide,
   (c3_cumulative_table c3sd 1 3 2 (by decide) (by decide)).1,
   (c3_cumulative_table c3sd 1 3 2 (by decide) (by decide)).2.1 (by decide),
   (c3_cumulative_table c3sd 1 3 2 (by decide) (by decide)).2.2 (by decide)
     (by decide) (by decide),
   by
     have hb : beatsInMeasure c3sd 1 = 4 := by decide
     have he : effTempo c3sd 1 = 100 := by decide
     simp [cumStartSum, List.range', measureLen, secPerBeat, hb, he]
     norm_num⟩

/-- Under a positive base tempo, the seconds-per-beat used for a note in
range is the per-measure value (the falsy fallback never fires). -/
theorem noteSecPerBeat_in_range (sd : ScoreData) (fromM : Nat) (n : Note)
    (h1 : fromM ≤ n.measure) (h2 : n.measure ≤ lastNotesMeasure sd fromM)
    (h3 : 0 < sd.score.tempo) :
    noteSecPerBeat sd fromM n = secPerBeat sd n.measure := by
  unfold noteSecPerBeat sessionTables
  rw [lookup_spb_table sd fromM (lastNotesMeasure sd fromM) n.measure h1 h2]
  have hne : secPerBeat sd n.measure ≠ 0 :=
    ne_of_gt (secPerBeat_pos sd n.measure h3)
  simp [hne]

/-- Claim C4: every scheduled playable note in range starts at
sessionStart + scheduleAhead + cumulative measure start + (beat - 1) times
seconds-per-beat of its measure, and lasts its duration-class beat count
times seconds-per-beat of its measure. -/
theorem c4_note_timing (sd : ScoreData) (fromM : Nat) (sessionStart : ℚ)
    (n : Note) (h1 : fromM ≤ n.measure)
    (h2 : n.measure ≤ lastNotesMeasure sd fromM)
    (h3 : 0 < sd.score.tempo) :
    noteStartTime sd fromM sessionStart n
        = sessionStart + SCHEDULE_AHEAD + cumStartSum sd fromM n.measure
            + (n.beat - 1) * secPerBeat sd n.measure
    ∧ noteDurationSec sd fromM n
        = ((DUR_TO_BEATS n.duration).getD 1) * secPerBeat sd n.measure := by
  constructor
  · unfold noteStartTime sessionTables
    rw [lookup_start_table sd fromM (lastNotesMeasure sd fromM) n.measure h1 h2,
      Option.getD_some, noteSecPerBeat_in_range sd fromM n h1 h2 h3]
  · unfold noteDurationSec
    rw [noteSecPerBeat_in_range sd fromM n h1 h2 h3]

/-- The scenario note of the spec: a quarter note at beat 2.5 of measure 1
(for the C4 witness). -/
def c4note : Note :=
  { id := "w4", instrument_id := "violin1", pitch := "A4", measure := 1,
    beat := 5/2, duration := "quarter", is_rest := false, dynamic := "mf",
    vibrato := 0 }

/-- The scenario score of the spec: 120 BPM, 4/4, no overrides (for the C4
witness). -/
def c4sd : ScoreData :=
  { score := { title := "t", key_signature := "C", time_signature := "4/4",
               tempo := 120, total_measures := 32 },
    notes := [c4note], measureSignatures := [] }

/-- Witness for C4, the scenario of the spec: the quarter note at beat 2.5
of a 4/4 measure at 120 BPM, playing from measure 1 with session start 0,
starts at SCHEDULE_AHEAD + 0.75 seconds and lasts 0.5 seconds. -/
theorem c4_note_timing_witness :
    (1 : Nat) ≤ c4note.measure
    ∧ c4note.measure ≤ lastNotesMeasure c4sd 1
    ∧ 0 < c4sd.score.tempo
    ∧ noteStartTime c4sd 1 0 c4note
        = 0 + SCHEDULE_AHEAD + cumStartSum c4sd 1 c4note.measure
            + (c4note.beat - 1) * secPerBeat c4sd c4note.measure
    ∧ noteStartTime c4sd 1 0 c4note = 87/100
    ∧ noteDurationSec c4sd 1 c4note = 1/2 :=
  ⟨by decide, by decide, by decide,
   (c4_note_timing c4sd 1 0 c4note (by decide) (by decide) (by decide)).1,
   by
     rw [(c4_note_timing c4sd 1 0 c4note (by decide) (by decide)
        (by decide)).1]
     have he : effTempo c4sd 1 = 120 := by decide
     show (0 : ℚ) + SCHEDULE_AHEAD + cumStartSum c4sd 1 1
         + (5/2 - 1) * secPerBeat c4sd 1 = 87/100
     simp [cumStartSum, List.range', secPerBeat, he, SCHEDULE_AHEAD]
     norm_num,
   by
     rw [(c4_note_timing c4sd 1 0 c4note (by decide) (by decide)
        (by decide)).2]
     have he : effTempo c4sd 1 = 120 := by decide
     show ((DUR_TO_BEATS "quarter").getD 1) * secPerBeat c4sd 1 = 1/2
     simp [DUR_TO_BEATS, secPerBeat, he]
     norm_num⟩

-- =========================================================================
-- Claim C5: preload settles before any note is scheduled
-- =========================================================================

/-- Claim C5: in the event trace of one run of play(), every preload
settlement precedes every note scheduling: no note is submitted to the
audio graph until the preload of the entire playable note set has settled. -/
theorem c5_preload_before_schedule (cached : List String) (sd : ScoreData)
    (fromM : Nat) (solo : Option String) (muted : List String)
    (i j : Nat) (k x : String)
    (hi : (playTrace cached sd fromM solo muted)[i]?
        = some (PlayEvent.preloadSettled k))
    (hj : (playTrace cached sd fromM solo muted)[j]?
        = some (PlayEvent.noteScheduled x)) :
    i < j := by
  unfold playTrace at hi hj
  set A := (preloadKeys cached
      (sd.notes.filter (fun n => !n.is_rest && fromM ≤ n.measure))).map
    PlayEvent.preloadSettled with hA
  set B := (filteredNotes sd fromM solo muted).map
      (fun n => PlayEvent.noteScheduled n.id) with hB
  have hiA : i < A.length := by
    by_contra hlt
    push_neg at hlt
    rw [List.getElem?_append_right hlt] at hi
    have hmem := List.getElem?_mem hi
    rw [hB] at hmem
    obtain ⟨n, _, hn⟩ := List.mem_map.mp hmem
    exact PlayEvent.noConfusion hn
  have hjA : A.length ≤ j := by
    by_contra hlt
    push_neg at hlt
    rw [List.getElem?_append_left hlt] at hj
    have hmem := List.getElem?_mem hj
    rw [hA] at hmem
    obtain ⟨n, _, hn⟩ := List.mem_map.mp hmem
    exact PlayEvent.noConfusion hn
  omega

/-- A concrete one-note score (for the C5 witness). -/
def c5sd : ScoreData :=
  { score := { title := "t", key_signature := "C", time_signature := "4/4",
               tempo := 100, total_measures := 32 },
    notes := [{ id := "w5", instrument_id := "violin1", pitch := "A4",
                measure := 1, beat := 1, duration := "quarter",
                is_rest := false, dynamic := "mf", vibrato := 0 }],
    measureSignatures := [] }

/-- Witness for C5: on a one-note score, the preload settlement for the
sample of the note occupies index 0 of the trace and the scheduling of the
note index 1. -/
theorem c5_preload_before_schedule_witness :
    (playTrace [] c5sd 1 none [])[0]?
        = some (PlayEvent.preloadSettled "violin:A4")
    ∧ (playTrace [] c5sd 1 none [])[1]?
        = some (PlayEvent.noteScheduled "w5")
    ∧ 0 < 1 :=
  ⟨by decide, by decide,
   c5_preload_before_schedule [] c5sd 1 none [] 0 1 "violin:A4" "w5"
     (by decide) (by decide)⟩

-- =========================================================================
-- Claim C1: play() during a previous session (code bug in the loading case)
-- =========================================================================

/-- A concrete one-note score for the first session of the C1 race. -/
def c1sdA : ScoreData :=
  { score := { title := "t", key_signature := "C", time_signature := "4/4",
               tempo := 100, total_measures := 32 },
    notes := [{ id := "a1", instrument_id := "viola", pitch := "C4",
                measure := 1, beat := 1, duration := "quarter",
                is_rest := false, dynamic := "mf", vibrato := 0 }],
    measureSignatures := [] }

/-- A concrete one-note score for the second session of the C1 race. -/
def c1sdB : ScoreData :=
  { score := { title := "t", key_signature := "C", time_signature := "4/4",
               tempo := 100, total_measures := 32 },
    notes := [{ id := "b1", instrument_id := "cello", pitch := "G2",
                measure := 1, beat := 1, duration := "quarter",
                is_rest := false, dynamic := "mf", vibrato := 0 }],
    measureSignatures := [] }

/-- Claim C1 fails in the loading case: evaluating the engine on the
interleaving where the second play() arrives while the first is awaiting
its preload (playStart A, playStart B, resume A, resume B).  The second
call stops nothing (the first had scheduled nothing yet) and re-sets the
playing flag, so the post-await guard of the first session is defeated:
the first session schedules its node 0 anyway, the second adds its node 2,
both sessions nodes are scheduled together and node 0 is never stopped.
By contrast, an uninterrupted second play() (last conjunct) leaves exactly
the nodes of the second session. -/
theorem c1_loading_race_coexist :
    (Engine.playResume c1sdA 1
        (Engine.playStart 1 (Engine.playStart 1 Engine.init))).scheduledNodes
      = [0]
    ∧ (Engine.playResume c1sdB 1 (Engine.playResume c1sdA 1
        (Engine.playStart 1 (Engine.playStart 1 Engine.init)))).scheduledNodes
      = [0, 2]
    ∧ 0 ∉ (Engine.playResume c1sdB 1 (Engine.playResume c1sdA 1
        (Engine.playStart 1 (Engine.playStart 1 Engine.init)))).stoppedFx
    ∧ (Engine.play c1sdB 1 (Engine.play c1sdA 1 Engine.init)).scheduledNodes
      = [2] := by
  decide

/-- Witness for C10: a tempo-only PUT on measure 3 erases the stored key
and time signatures of that measure. -/
theorem c10_put_replaces_row_witness :
    (1 : Nat) ≤ 3 ∧ (3 : Nat) ≤ 32
    ∧ ∃ db2, putMeasureSignature 32 c10db 3 c10body = Except.ok db2
        ∧ lookupRow db2 3 =
            some { key_signature := none, time_signature := none,
                   tempo := some 120 } := by
  refine ⟨by decide, by decide, ?_⟩
  have h := c10_put_replaces_row 32 3 c10db c10body (by decide) (by decide)
    (fun t ht => by cases ht; exact ⟨by norm_num, by norm_num⟩)
  obtain ⟨db2, hput, hrow⟩ := h
  exact ⟨db2, hput, by simpa using hrow⟩

end Ensemble
